import Mathlib

/-!
Verification of the HunterSimOptimizer core against its specification.

The Python sources are shallowly embedded: dictionaries of the build config
become association lists or explicit record fields, floats become rationals
(`ℚ`), and the driver/generator loops become structurally recursive
functions (the source's own iteration caps serve as fuel).  Each definition
cites the file and lines of the code it translates.
-/

namespace HunterSim

/-! ## Curriculum tiers and tier budgets (run_optimization.py, optimize_builds) -/

/-- Curriculum tier schedule selected by level
(`run_optimization.py` lines 602-619). -/
def curriculumTiers (level : ℕ) (useProgressive : Bool) : List ℚ :=
  if useProgressive then
    if level ≤ 10 then [1.00]
    else if level ≤ 20 then [0.50, 1.00]
    else if level ≤ 40 then [0.25, 0.50, 1.00]
    else [0.05, 0.10, 0.25, 0.50, 0.75, 1.00]
  else [1.00]

/-- Tier talent budget computed by the optimizer driver
(`run_optimization.py` line 641): `talent_points = int(level * point_multiplier)`.
Python `int` truncates toward zero; for the nonnegative operands used here
that is the floor. -/
def tierTalentPoints (level : ℕ) (pointMultiplier : ℚ) : ℤ :=
  ⌊(level : ℚ) * pointMultiplier⌋

/-- Tier attribute budget computed by the optimizer driver
(`run_optimization.py` line 642): `attribute_points = int(level * point_multiplier)`.
Note the source multiplies by the tier fraction only, not by 3. -/
def tierAttributePoints (level : ℕ) (pointMultiplier : ℚ) : ℤ :=
  ⌊(level : ℚ) * pointMultiplier⌋

/-- The attribute budget the specification prescribes for a tier:
`attr_pts = floor(3 * level * f)` (spec section 4.8, also 4.9
"Compute tier budgets (f * level, 3 f * level)").  Kept separate from
`tierAttributePoints` so the two can be compared. -/
def specAttributePoints (level : ℕ) (f : ℚ) : ℤ :=
  ⌊3 * (level : ℚ) * f⌋

/-! ## Stage completion and death (hunters.py) -/

/-- The slice of mutable hunter state that stage completion and death
handling read and write (`hunters.py`, class `Hunter` / `Ozzy`).
`dimc` is the value stored under the key `death_is_my_companion` in the
talents dict and `dimcPresent` records whether that key is present (the
dict is a `defaultdict(int)`, but `complete_stage` reads it with
`.get("death_is_my_companion", 2)`, whose default is 2, while item access
defaults to 0).  `sisters` is `attributes.get("blessings_of_the_sisters", 0)`. -/
structure CombatState where
  hp : ℚ
  maxHp : ℚ
  currentStage : ℕ
  maxStage : ℕ
  timesRevived : ℕ
  reviveLog : List ℕ
  catchingUp : Bool
  dimc : ℕ
  dimcPresent : Bool
  sisters : ℕ
deriving DecidableEq, Repr

/-- Stage completion (`hunters.py` lines 561-572, `Hunter.complete_stage`):
advance the stage; at or past `max_stage` force `hp = 0` and set
`times_revived = talents.get("death_is_my_companion", 2)`; past stage 100
clear the catch-up flag. -/
def complete_stage (stages : ℕ) (h : CombatState) : CombatState :=
  let h1 := { h with currentStage := h.currentStage + stages }
  let h2 := if h1.currentStage ≥ h1.maxStage then
      { h1 with hp := 0, timesRevived := if h1.dimcPresent then h1.dimc else 2 }
    else h1
  if h2.currentStage ≥ 100 then { h2 with catchingUp := false } else h2

/-- Death check (`hunters.py` lines 673-679, `Hunter.is_dead`): `hp <= 0`. -/
def is_dead (h : CombatState) : Bool := h.hp ≤ 0

/-- Death handling of the base class, used by Borge and Knox
(`hunters.py` lines 681-691, `Hunter.on_death`): revive to 80% max hp while
`times_revived < talents["death_is_my_companion"]`, logging the stage. -/
def on_death_base (h : CombatState) : CombatState :=
  if h.timesRevived < (if h.dimcPresent then h.dimc else 0) then
    { h with hp := 0.8 * h.maxHp,
             reviveLog := h.reviveLog ++ [h.currentStage],
             timesRevived := h.timesRevived + 1 }
  else h

/-- Ozzy's death handling (`hunters.py` lines 2015-2027, `Ozzy.on_death`):
the revive budget is `death_is_my_companion + blessings_of_the_sisters`. -/
def on_death_ozzy (h : CombatState) : CombatState :=
  let totalRevives := (if h.dimcPresent then h.dimc else 0) + h.sisters
  if h.timesRevived < totalRevives then
    { h with hp := 0.8 * h.maxHp,
             reviveLog := h.reviveLog ++ [h.currentStage],
             timesRevived := h.timesRevived + 1 }
  else h

/-- An Ozzy build one stage below the Ozzy stage cap of 210, with the
`death_is_my_companion` talent at its maximum of 2 and one level of
`blessings_of_the_sisters`. -/
def ozzyCapState : CombatState :=
  { hp := 50, maxHp := 100, currentStage := 209, maxStage := 210,
    timesRevived := 0, reviveLog := [], catchingUp := false,
    dimc := 2, dimcPresent := true, sisters := 1 }

/-! ## Stage cap loading (hunters.py, Hunter.load_build) -/

/-- The part of a build config dict that `load_build` consults for the
stage cap: whether a nested `meta` dict is present, and the value of
`meta["irl_max_stage"]` when it is.  In the flat format the code
reconstructs `meta` holding only `hunter` and `level`, so a top-level
`irl_max_stage` is never seen. -/
structure ConfigDict where
  hasMeta : Bool
  metaIrlMaxStage : Option ℕ
deriving DecidableEq, Repr

/-- Stage cap assignment in `load_build` (`hunters.py` lines 155-165):
`max_stage = meta.get("irl_max_stage", 1000)`, overridden to 210 whenever
the hunter is Ozzy. -/
def load_build_max_stage (name : String) (cfg : ConfigDict) : ℕ :=
  let metaIrl : Option ℕ := if cfg.hasMeta then cfg.metaIrlMaxStage else none
  let maxStage := metaIrl.getD 1000
  if name = "Ozzy" then 210 else maxStage

/-- Modelled from the spec: the simulation loop lives in `sim.py`, which is
not under `src/`; section 4.6 of the spec fixes its termination rule
("`current_stage ≥ stage_cap` → force death and stop", stages advancing one
at a time on kills).  `sim_final_stage cap n` is the hunter's stage after
`n` stage-completion opportunities under that rule. -/
def sim_final_stage (stageCap : ℕ) : ℕ → ℕ
  | 0 => 0
  | n + 1 =>
    let s := sim_final_stage stageCap n
    if stageCap ≤ s then s else s + 1

/-! ## Loot multiplier and end-of-run loot (hunters.py) -/

/-- The closed set of hunter archetypes. -/
inductive HunterKind where
  | Borge
  | Ozzy
  | Knox
deriving DecidableEq, Repr

/-- An integer-valued build dictionary (`defaultdict(int)`): absent keys
read as 0. -/
abbrev DictN := List (String × ℕ)

/-- The `bonuses` dict restricted to its integer- and boolean-valued
entries (Python booleans are the integers 0 and 1, and truthiness is
being nonzero). -/
abbrev DictZ := List (String × ℤ)

/-- Dictionary item access with the `defaultdict(int)` default of 0. -/
def lookN (d : DictN) (k : String) : ℕ := (d.lookup k).getD 0

/-- `bonuses.get(k, default)` on the integer-valued entries. -/
def lookZ (d : DictZ) (k : String) (v : ℤ) : ℤ := (d.lookup k).getD v

/-- Python `a or b` on integers: `a` if it is nonzero, else `b`. -/
def orElseNonzero (a b : ℕ) : ℕ := if a ≠ 0 then a else b

/-- The slice of a loaded hunter that `compute_loot_multiplier`,
`get_xp_bonus` and `calculate_final_loot` read.  `ultimaMultiplier` is
`bonuses.get("ultima_multiplier", 1.0)` (float-valued, hence a separate
field), and `effectChance` is the derived stat `self.effect_chance`
consulted by the presence-of-god factor. -/
structure LootBuild where
  kind : HunterKind
  attributes : DictN
  talents : DictN
  inscryptions : DictN
  relics : DictN
  gems : DictN
  gadgets : DictN
  bonuses : DictZ
  ultimaMultiplier : ℚ
  effectChance : ℚ
deriving DecidableEq, Repr

/-- Timeless Mastery attribute factor (`hunters.py` lines 334-340). -/
def timelessMasteryFactor (b : LootBuild) : ℚ :=
  match b.kind with
  | .Borge => 1.0 + (lookN b.attributes "timeless_mastery" : ℚ) * 0.14
  | .Ozzy => 1.0 + (lookN b.attributes "timeless_mastery" : ℚ) * 0.16
  | .Knox => 1.0 + (lookN b.attributes "timeless_mastery" : ℚ) * 0.14

/-- Shard milestone factor, `1.02^level` uncapped (`hunters.py` lines 342-346). -/
def shardMilestoneFactor (b : LootBuild) : ℚ :=
  let s := lookZ b.bonuses "shard_milestone" 0
  if s > 0 then (1.02 : ℚ) ^ s else 1

/-- Relic 7 (Manifestation Core: Titan) factor, `1.05^level`
(`hunters.py` lines 348-352). -/
def relic7Factor (b : LootBuild) : ℚ :=
  let r := orElseNonzero (lookN b.relics "r7") (lookN b.relics "manifestation_core_titan")
  if r > 0 then (1.05 : ℚ) ^ r else 1

/-- Research 81 tier factor (`hunters.py` lines 354-364). -/
def research81Factor (b : LootBuild) : ℚ :=
  let r := lookZ b.bonuses "research81" 0
  if r ≥ 4 then
    if b.kind = .Borge ∨ (b.kind = .Ozzy ∧ r ≥ 5) ∨ r ≥ 6 then 1.32 else 1.1
  else if r ≥ 1 then
    if b.kind = .Borge ∨ (b.kind = .Ozzy ∧ r ≥ 2) ∨ r ≥ 3 then 1.1 else 1
  else 1

/-- Hunter-specific inscryption factors, including Ozzy's
blessings-of-the-scarab attribute (`hunters.py` lines 366-395). -/
def inscryptionLootFactor (b : LootBuild) : ℚ :=
  match b.kind with
  | .Borge =>
    (let i14 := lookN b.inscryptions "i14"; if i14 > 0 then (1.1 : ℚ) ^ i14 else 1) *
    (let i44 := lookN b.inscryptions "i44"; if i44 > 0 then (1.08 : ℚ) ^ i44 else 1) *
    (let i60 := lookN b.inscryptions "i60"; if i60 > 0 then 1.0 + (i60 : ℚ) * 0.03 else 1) *
    (let i80 := lookN b.inscryptions "i80"; if i80 > 0 then (1.1 : ℚ) ^ i80 else 1)
  | .Ozzy =>
    (let i32 := lookN b.inscryptions "i32"; if i32 > 0 then (1.5 : ℚ) ^ i32 else 1) *
    (let i81 := lookN b.inscryptions "i81"; if i81 > 0 then (1.1 : ℚ) ^ i81 else 1) *
    (let sc := lookN b.attributes "blessings_of_the_scarab";
      if sc > 0 then 1.0 + (sc : ℚ) * 0.05 else 1)
  | .Knox => 1

/-- Per-gadget loot factor (`hunters.py` lines 397-403, `gadget_loot`):
`1.005^level * 1.02^(level // 10)`, 1 at level 0. -/
def gadget_loot (level : ℕ) : ℚ :=
  if level ≤ 0 then 1.0
  else (1.005 : ℚ) ^ level * (1.02 : ℚ) ^ (level / 10)

/-- The hunter's own loot gadget factor (wrench for Borge, zaptron for
Ozzy, trident for Knox), with both short and long key names supported
(`hunters.py` lines 405-417). -/
def hunterGadgetLootFactor (b : LootBuild) : ℚ :=
  match b.kind with
  | .Borge => gadget_loot (orElseNonzero (lookN b.gadgets "wrench") (lookN b.gadgets "wrench_of_gore"))
  | .Ozzy => gadget_loot (orElseNonzero (lookN b.gadgets "zaptron") (lookN b.gadgets "zaptron_533"))
  | .Knox => gadget_loot (orElseNonzero (lookN b.gadgets "trident")
      (orElseNonzero (lookN b.gadgets "gadget19") (lookN b.gadgets "trident_of_tides")))

/-- The anchor gadget factor, applied to every hunter
(`hunters.py` lines 418-420). -/
def anchorLootFactor (b : LootBuild) : ℚ :=
  gadget_loot (orElseNonzero (lookN b.gadgets "anchor") (lookN b.gadgets "anchor_of_ages"))

/-- Loop-mod (Ouroboros) factors (`hunters.py` lines 422-450). -/
def loopModFactor (b : LootBuild) : ℚ :=
  match b.kind with
  | .Borge =>
    (let s := min (lookZ b.bonuses "scavenger" 0) 25; if s > 0 then (1.05 : ℚ) ^ s else 1) *
    (let l1 := lookZ b.bonuses "lm_ouro1" 0; if l1 > 0 then (1.03 : ℚ) ^ l1 else 1) *
    (let l11 := lookZ b.bonuses "lm_ouro11" 0; if l11 > 0 then (1.05 : ℚ) ^ l11 else 1)
  | .Ozzy =>
    (let s := min (lookZ b.bonuses "scavenger2" 0) 25; if s > 0 then (1.05 : ℚ) ^ s else 1) *
    (let l18 := lookZ b.bonuses "lm_ouro18" 0; if l18 > 0 then (1.03 : ℚ) ^ l18 else 1)
  | .Knox => 1

/-- Construction milestone flat factors (`hunters.py` lines 452-456). -/
def constructionMilestoneFactor (b : LootBuild) : ℚ :=
  (if lookZ b.bonuses "cm46" 0 ≠ 0 then (1.03 : ℚ) else 1) *
  (if lookZ b.bonuses "cm47" 0 ≠ 0 then (1.02 : ℚ) else 1) *
  (if lookZ b.bonuses "cm48" 0 ≠ 0 then (1.07 : ℚ) else 1) *
  (if lookZ b.bonuses "cm51" 0 ≠ 0 then (1.05 : ℚ) else 1)

/-- Diamond card factors, kind-gated (`hunters.py` lines 458-462). -/
def diamondCardFactor (b : LootBuild) : ℚ :=
  (if b.kind = .Borge ∧ lookZ b.bonuses "gaiden_card" 0 ≠ 0 then (1.05 : ℚ) else 1) *
  (if b.kind = .Ozzy ∧ lookZ b.bonuses "iridian_card" 0 ≠ 0 then (1.05 : ℚ) else 1)

/-- Diamond loot booster factor (`hunters.py` lines 464-468). -/
def diamondLootFactor (b : LootBuild) : ℚ :=
  let d := lookZ b.bonuses "diamond_loot" 0
  if d > 0 then 1.0 + (d : ℚ) * 0.025 else 1

/-- IAP Traversal Pack factor (`hunters.py` lines 470-473). -/
def iapTravpackFactor (b : LootBuild) : ℚ :=
  if lookZ b.bonuses "iap_travpack" 0 ≠ 0 then 1.25 else 1

/-- Ultima direct multiplier (`hunters.py` lines 475-479). -/
def ultimaFactor (b : LootBuild) : ℚ :=
  if b.ultimaMultiplier > 0 then b.ultimaMultiplier else 1

/-- Per-kind attraction loot gem, `1.07^level` (`hunters.py` lines 481-492). -/
def attractionGemFactor (b : LootBuild) : ℚ :=
  match b.kind with
  | .Borge => (let g := lookN b.gems "attraction_loot_borge"; if g > 0 then (1.07 : ℚ) ^ g else 1)
  | .Ozzy => (let g := lookN b.gems "attraction_loot_ozzy"; if g > 0 then (1.07 : ℚ) ^ g else 1)
  | .Knox => (let g := lookN b.gems "attraction_loot_knox"; if g > 0 then (1.07 : ℚ) ^ g else 1)

/-- Attraction Node 3 gem factor (`hunters.py` lines 494-498). -/
def attractionNode3Factor (b : LootBuild) : ℚ :=
  let g := lookN b.gems "attraction_node_#3"
  if g > 0 then 1.0 + 0.25 * (g : ℚ) else 1

/-- Presence of God talent factor, scaled by the derived effect chance
(`hunters.py` lines 500-504). -/
def presenceOfGodFactor (b : LootBuild) : ℚ :=
  let p := lookN b.talents "presence_of_god"
  if p > 0 then 1.0 + (p : ℚ) * 0.2 * b.effectChance else 1

/-- Hunter-specific skill-6 loot bonus factor (`hunters.py` lines 506-510). -/
def skill6LootFactor (b : LootBuild) : ℚ :=
  let s := lookZ b.bonuses "skill6_loot_bonus" 0
  if s > 0 then 1.0 + (s : ℚ) else 1

/-- Wastarian relic loot factor (`hunters.py` lines 512-516). -/
def wastarianFactor (b : LootBuild) : ℚ :=
  let w := lookN b.relics "wastarian_relic_loot_bonus"
  if w > 0 then 1.0 + (w : ℚ) * 0.05 else 1

/-- `Hunter.compute_loot_multiplier` (`hunters.py` lines 324-518): starts
at 1.0 and multiplies in every factor in source order. -/
def compute_loot_multiplier (b : LootBuild) : ℚ :=
  1.0 * timelessMasteryFactor b * shardMilestoneFactor b * relic7Factor b *
    research81Factor b * inscryptionLootFactor b * hunterGadgetLootFactor b *
    anchorLootFactor b * loopModFactor b * constructionMilestoneFactor b *
    diamondCardFactor b * diamondLootFactor b * iapTravpackFactor b *
    ultimaFactor b * attractionGemFactor b * attractionNode3Factor b *
    presenceOfGodFactor b * skill6LootFactor b * wastarianFactor b

/-- `Hunter.get_xp_bonus` (`hunters.py` lines 520-559). -/
def get_xp_bonus (b : LootBuild) : ℚ :=
  match b.kind with
  | .Borge =>
    (let r19 := orElseNonzero (lookN b.relics "r19") (lookN b.relics "book_of_mephisto")
     if r19 > 0 then (2 : ℚ) ^ (min r19 8) else 1) *
    (let p := lookZ b.bonuses "pom3" 0; if p > 0 then 1.0 + (p : ℚ) * 0.10 else 1)
  | .Ozzy =>
    (let i33 := lookN b.inscryptions "i33"; if i33 > 0 then (1.75 : ℚ) ^ (min i33 6) else 1) *
    (let p := lookZ b.bonuses "poi3" 0; if p > 0 then 1.0 + (p : ℚ) * 0.15 else 1)
  | .Knox =>
    (let p := lookZ b.bonuses "pok3" 0; if p > 0 then 1.0 + (p : ℚ) * 0.15 else 1)

/-- The per-resource loot fields written by `calculate_final_loot`
(initialized to 0 in `Hunter.__init__`). -/
structure LootTotals where
  loot_common : ℚ
  loot_uncommon : ℚ
  loot_rare : ℚ
  total_loot : ℚ
  total_xp : ℚ
deriving DecidableEq, Repr

/-- The per-kind StageLootMultiplier (`hunters.py` lines 592-600). -/
def stage_loot_mult (k : HunterKind) : ℚ :=
  match k with
  | .Borge => 1.051
  | .Ozzy => 1.059
  | .Knox => 1.074

/-- Per-kind base common loot (`hunters.py` lines 620-642). -/
def loot_base_common (k : HunterKind) : ℚ :=
  match k with
  | .Borge => 0.0237
  | .Ozzy => 0.0237
  | .Knox => 0.0237

/-- Per-kind base uncommon loot (`hunters.py` lines 620-642). -/
def loot_base_uncommon (k : HunterKind) : ℚ :=
  match k with
  | .Borge => 0.0463
  | .Ozzy => 0.0463
  | .Knox => 0.0463

/-- Per-kind base rare loot (`hunters.py` lines 620-642). -/
def loot_base_rare (k : HunterKind) : ℚ :=
  match k with
  | .Borge => 0.0750
  | .Ozzy => 0.0750
  | .Knox => 0.0750

/-- Per-kind base XP (`hunters.py` lines 620-642). -/
def loot_base_xp (k : HunterKind) : ℚ :=
  match k with
  | .Borge => 26300000000000
  | .Ozzy => 779000000000
  | .Knox => 786

/-- `Hunter.calculate_final_loot` (`hunters.py` lines 574-671): geometric
series over stages, times 10 enemies per stage, times the composed loot
multiplier; XP scales linearly with the stage.  Returns the previous
totals unchanged when the final stage is 0 (the early return). -/
def calculate_final_loot (b : LootBuild) (stage : ℕ) (prev : LootTotals) : LootTotals :=
  if stage ≤ 0 then prev
  else
    let mult := stage_loot_mult b.kind
    let geomSum : ℚ := if mult > 1.0 then (mult ^ stage - 1.0) / (mult - 1.0) else (stage : ℚ)
    let enemiesPerStage : ℚ := 10.0
    let totalEnemyFactor := geomSum * enemiesPerStage
    let lootMult := compute_loot_multiplier b
    let lc := loot_base_common b.kind * totalEnemyFactor * lootMult
    let lu := loot_base_uncommon b.kind * totalEnemyFactor * lootMult
    let lr := loot_base_rare b.kind * totalEnemyFactor * lootMult
    { loot_common := lc, loot_uncommon := lu, loot_rare := lr,
      total_loot := lc + lu + lr,
      total_xp := loot_base_xp b.kind * (stage : ℚ) * get_xp_bonus b }

/-- A build with no allocations at all: every dict empty, ultima at its
default 1.0, effect chance 0. -/
def emptyLootBuild : LootBuild :=
  { kind := .Borge, attributes := [], talents := [], inscryptions := [], relics := [],
    gems := [], gadgets := [], bonuses := [], ultimaMultiplier := 1.0, effectChance := 0 }

/-- A Borge build whose only nonzero ability is the anchor gadget at
level 1. -/
def anchorOnlyBuild : LootBuild :=
  { emptyLootBuild with gadgets := [("anchor", 1)] }

/-- Zero-initialized loot totals (`Hunter.__init__`). -/
def zeroLootTotals : LootTotals :=
  { loot_common := 0, loot_uncommon := 0, loot_rare := 0, total_loot := 0, total_xp := 0 }

/-- The per-gadget factor the specification claims for the loot
multiplier, `gadget_compound(n) = (1 + n * 0.003) * 1.002 ^ (n / 10)`
(spec section 4.3; the formula the stat builder does use, see
`gadget_mult` below). -/
def gadget_compound (n : ℕ) : ℚ := (1 + (n : ℚ) * 0.003) * (1.002 : ℚ) ^ (n / 10)

/-! ## Borge derived max hp (hunters.py, Borge.__create__) -/

/-- The slice of a Borge build config read by the max-hp computation in
`Borge.__create__` (`hunters.py` lines 962-1005): `hp_upgrade` is
`base_stats["hp"]`, the gadget fields are `gadgets.get("wrench_of_gore"/
"zaptron_533"/"anchor_of_ages", 0)`, and the rest are the named attribute,
relic, gem, talent and inscryption levels. -/
structure BorgeStatBuild where
  level : ℤ
  hp_upgrade : ℕ
  soul_of_ares : ℕ
  disk_of_dawn : ℕ
  creation_node_3 : ℕ
  creation_node_2 : ℕ
  creation_node_1 : ℕ
  legacy_of_ultima : ℕ
  wrench_of_gore : ℕ
  zaptron_533 : ℕ
  anchor_of_ages : ℕ
  i3 : ℕ
  i27 : ℕ
deriving DecidableEq, Repr

/-- Per-gadget stat multiplier (`hunters.py` lines 971-974, `gadget_mult`):
`(1 + level * 0.003) * (1.002 ** (level // 10))` - the formula the spec
names `gadget_compound`, applied per gadget. -/
def gadget_mult (level : ℕ) : ℚ :=
  (1 + (level : ℚ) * 0.003) * (1.002 : ℚ) ^ (level / 10)

/-- Borge max hp (`hunters.py` lines 976-1004): hp base curve, then the
chained multiplicative layers (with `gadget_hp_mult` the PRODUCT of
`gadget_mult` over the three gadget levels), then the flat inscryption
terms added after all multipliers. -/
def borge_max_hp (b : BorgeStatBuild) : ℚ :=
  let gadget_hp_mult :=
    gadget_mult b.wrench_of_gore * gadget_mult b.zaptron_533 * gadget_mult b.anchor_of_ages
  let talent_dump_mult := 1 + (b.legacy_of_ultima : ℚ) * 0.01
  let hp_base : ℚ := 43 + (b.hp_upgrade : ℚ) * (2.50 + 0.01 * ((b.hp_upgrade / 5 : ℕ) : ℚ))
  let hp_multiplied := hp_base
    * (1 + (b.soul_of_ares : ℚ) * 0.01)
    * (1 + (b.disk_of_dawn : ℚ) * 0.03)
    * (1 + (0.015 * ((b.level : ℚ) - 39)) * (b.creation_node_3 : ℚ))
    * (1 + 0.02 * (b.creation_node_2 : ℚ))
    * (1 + 0.2 * (b.creation_node_1 : ℚ))
    * gadget_hp_mult
    * talent_dump_mult
  hp_multiplied + (b.i3 : ℚ) * 6 + (b.i27 : ℚ) * 59.15

/-- The max-hp formula as the claim words it: the same layers, but with
`gadget_compound` applied to the SUM of the three gadget levels. -/
def borge_max_hp_claim (b : BorgeStatBuild) : ℚ :=
  (43 + (b.hp_upgrade : ℚ) * (2.50 + 0.01 * ((b.hp_upgrade / 5 : ℕ) : ℚ)))
    * (1 + (b.soul_of_ares : ℚ) * 0.01)
    * (1 + (b.disk_of_dawn : ℚ) * 0.03)
    * (1 + (0.015 * ((b.level : ℚ) - 39)) * (b.creation_node_3 : ℚ))
    * (1 + 0.02 * (b.creation_node_2 : ℚ))
    * (1 + 0.2 * (b.creation_node_1 : ℚ))
    * gadget_compound (b.wrench_of_gore + b.zaptron_533 + b.anchor_of_ages)
    * (1 + (b.legacy_of_ultima : ℚ) * 0.01)
    + (b.i3 : ℚ) * 6 + (b.i27 : ℚ) * 59.15

/-- The max-hp formula amended: identical to the claim except that the
gadget layer is the product of `gadget_mult` over the three individual
gadget levels. -/
def borge_max_hp_amended (b : BorgeStatBuild) : ℚ :=
  (43 + (b.hp_upgrade : ℚ) * (2.50 + 0.01 * ((b.hp_upgrade / 5 : ℕ) : ℚ)))
    * (1 + (b.soul_of_ares : ℚ) * 0.01)
    * (1 + (b.disk_of_dawn : ℚ) * 0.03)
    * (1 + (0.015 * ((b.level : ℚ) - 39)) * (b.creation_node_3 : ℚ))
    * (1 + 0.02 * (b.creation_node_2 : ℚ))
    * (1 + 0.2 * (b.creation_node_1 : ℚ))
    * (gadget_mult b.wrench_of_gore * gadget_mult b.zaptron_533 * gadget_mult b.anchor_of_ages)
    * (1 + (b.legacy_of_ultima : ℚ) * 0.01)
    + (b.i3 : ℚ) * 6 + (b.i27 : ℚ) * 59.15

/-- A Borge build with two gadgets at level 1 and everything else zero. -/
def twoGadgetBuild : BorgeStatBuild :=
  { level := 0, hp_upgrade := 0, soul_of_ares := 0, disk_of_dawn := 0,
    creation_node_3 := 0, creation_node_2 := 0, creation_node_1 := 0,
    legacy_of_ultima := 0, wrench_of_gore := 1, zaptron_533 := 1,
    anchor_of_ages := 0, i3 := 0, i27 := 0 }

/-! ## Build generator random walks (gui_multi.py, BuildGenerator) -/

/-- The per-hunter class data `BuildGenerator` reads: the talent and
attribute entries of the `costs` table plus the
`talent_requires_all_maxed`, `attribute_dependencies`,
`attribute_point_gates` and `attribute_exclusions` class attributes.
A `none` max models `float("inf")`; `deps a = none` models `a not in
attribute_dependencies` and `pointGates a = none` models `a` having no
point gate. -/
structure GenClass where
  talents : List String
  talentMax : String → Option ℕ
  requiresAllMaxed : List String
  attrs : List String
  attrCost : String → ℕ
  attrMax : String → Option ℕ
  deps : String → Option (List (String × ℕ))
  pointGates : String → Option ℕ
  exclusions : List (String × String)

/-- A stream of pseudo-random indices standing in for `random.choice`:
at step i the element at index `o i % len` of the current candidate list
is picked.  Quantifying over every oracle covers every sequence of
choices the source's RNG could make. -/
abbrev Oracle := ℕ → ℕ

/-- `random.choice` on a nonempty candidate list, driven by the oracle. -/
def chooseFrom (o : Oracle) (i : ℕ) (l : List String) : String :=
  l.getD (o i % l.length) ""

/-- `result[chosen] += 1` on a functional allocation. -/
def bump (f : String → ℕ) (k : String) : String → ℕ :=
  fun x => if x = k then f x + 1 else f x

/-- `BuildGenerator.__init__` (`gui_multi.py` line 84): one talent point
per level. -/
def generatorTalentPoints (level : ℕ) : ℕ := level

/-- `BuildGenerator.__init__` (`gui_multi.py` line 85): three attribute
points per level. -/
def generatorAttributePoints (level : ℕ) : ℕ := level * 3

/-- The per-iteration candidate computation of
`BuildGenerator._random_walk_talent_allocation` (`gui_multi.py` lines
213-236): the `all_normal_maxed` check, the `valid_talents` filter and
the `unknown_talent` fallback when the filter comes up empty. -/
def talent_valid_list (g : GenClass) (result : String → ℕ) : List String :=
  let allNormalMaxed := g.talents.all fun t =>
    if t ∉ g.requiresAllMaxed ∧ t ≠ "unknown_talent" ∧ (g.talentMax t).isSome then
      (g.talentMax t).getD 0 ≤ result t
    else true
  let valid := g.talents.filter fun t =>
    if t = "unknown_talent" then false
    else if (g.talentMax t).isSome ∧ (g.talentMax t).getD 0 ≤ result t then false
    else if t ∈ g.requiresAllMaxed ∧ ¬ allNormalMaxed then false
    else true
  if valid.isEmpty then
    (if "unknown_talent" ∈ g.talents then ["unknown_talent"] else [])
  else valid

/-- The `while remaining > 0` loop of the talent walk, with the remaining
budget as structural fuel: each iteration either spends exactly one point
on a talent from the valid list or breaks. -/
def talent_walk_loop (g : GenClass) (o : Oracle) : ℕ → ℕ → (String → ℕ) → (String → ℕ)
  | 0, _, result => result
  | r + 1, i, result =>
    let valid := talent_valid_list g result
    if valid.isEmpty then result
    else talent_walk_loop g o r (i + 1) (bump result (chooseFrom o i valid))

/-- `BuildGenerator._random_walk_talent_allocation` (`gui_multi.py` lines
204-242): start from the all-zero allocation with `remaining =
self.talent_points` and run the walk. -/
def random_walk_talent_allocation (g : GenClass) (talentPoints : ℕ) (o : Oracle) :
    String → ℕ :=
  talent_walk_loop g o talentPoints 0 (fun _ => 0)

/-- The mutable state of `_random_walk_attr_allocation`: the allocation,
the remaining points (an `ℤ`, since the fallback can overspend below
zero), and the consecutive-stuck counter. -/
structure AttrWalkState where
  result : String → ℕ
  remaining : ℤ
  stuck : ℕ

/-- `BuildGenerator._can_unlock_attribute` (`gui_multi.py` lines 244-258):
the point gate requires `Σ result[other] * cost[other]` over the other
attributes to reach the gate. -/
def can_unlock_attribute (g : GenClass) (attr : String) (result : String → ℕ) : Bool :=
  match g.pointGates attr with
  | none => true
  | some required =>
    let pointsSpent := ((g.attrs.filter fun a => a ≠ attr).map
      fun a => result a * g.attrCost a).sum
    required ≤ pointsSpent

/-- The `valid_attrs` filter of `_random_walk_attr_allocation`
(`gui_multi.py` lines 274-301): affordable, below max (infinite maxes
skip the check), dependencies satisfied, point gate satisfied, and not
excluded by a nonzero exclusion partner. -/
def valid_attrs (g : GenClass) (result : String → ℕ) (remaining : ℤ) : List String :=
  g.attrs.filter fun attr =>
    if (g.attrCost attr : ℤ) > remaining then false
    else if (g.attrMax attr).isSome ∧ (g.attrMax attr).getD 0 ≤ result attr then false
    else if (match g.deps attr with
        | none => true
        | some reqs => reqs.all fun p => p.2 ≤ result p.1) = false then false
    else if can_unlock_attribute g attr result = false then false
    else if g.exclusions.any (fun p =>
        if p.1 = attr ∨ p.2 = attr then
          decide (0 < (if p.2 = attr then result p.1 else result p.2))
        else false) then false
    else true

/-- The residual-point fallback of `_random_walk_attr_allocation`
(`gui_multi.py` lines 306-311): the candidate list is computed once,
filtered only by affordability at entry, and NOT refiltered as
`remaining` drops, so a pick can overspend.  Fuel bounds the iterations;
whenever every cost is at least 1 the loop needs at most the entry
`remaining` of them (with a zero-cost attribute the source loop would
not terminate). -/
def fallback_dump (g : GenClass) (o : Oracle) (unlimited : List String) :
    ℕ → ℕ → AttrWalkState → AttrWalkState
  | 0, _, st => st
  | fuel + 1, i, st =>
    if st.remaining ≤ 0 ∨ unlimited.isEmpty then st
    else
      let chosen := chooseFrom o i unlimited
      fallback_dump g o unlimited fuel (i + 1)
        { st with result := bump st.result chosen,
                  remaining := st.remaining - g.attrCost chosen }

/-- The main loop of `_random_walk_attr_allocation` (`gui_multi.py` lines
269-318), with `max_iterations = 10000` as fuel exactly as in the source. -/
def attr_walk_loop (g : GenClass) (o : Oracle) : ℕ → ℕ → AttrWalkState → AttrWalkState
  | 0, _, st => st
  | fuel + 1, i, st =>
    if st.remaining ≤ 0 then st
    else
      let valid := valid_attrs g st.result st.remaining
      if valid.isEmpty then
        let stuck := st.stuck + 1
        if 3 ≤ stuck then
          let unlimited := g.attrs.filter fun a => (g.attrCost a : ℤ) ≤ st.remaining
          fallback_dump g o unlimited (st.remaining.toNat + 1) i { st with stuck := stuck }
        else attr_walk_loop g o fuel (i + 1) { st with stuck := stuck }
      else
        let chosen := chooseFrom o i valid
        attr_walk_loop g o fuel (i + 1)
          { result := bump st.result chosen,
            remaining := st.remaining - g.attrCost chosen,
            stuck := 0 }

/-- `BuildGenerator._random_walk_attr_allocation` (`gui_multi.py` lines
260-324): run the walk from the all-zero allocation with `remaining =
self.attribute_points`, then apply the final overspend guard
`if total_spent > self.attribute_points: return {a: 0 for a in attrs}`. -/
def random_walk_attr_allocation (g : GenClass) (attributePoints : ℕ) (o : Oracle) :
    String → ℕ :=
  let st := attr_walk_loop g o 10000 0
    { result := fun _ => 0, remaining := (attributePoints : ℤ), stuck := 0 }
  let totalSpent := (g.attrs.map fun a => st.result a * g.attrCost a).sum
  if totalSpent > attributePoints then (fun _ => 0) else st.result

/-- Borge talent maxes (`hunters.py` lines 799-838). -/
def borgeTalentTable : List (String × ℕ) :=
  [("death_is_my_companion", 2), ("life_of_the_hunt", 5), ("unfair_advantage", 5),
   ("impeccable_impacts", 10), ("omen_of_defeat", 10), ("call_me_lucky_loot", 12),
   ("presence_of_god", 15), ("fires_of_war", 15), ("legacy_of_ultima", 50)]

/-- Borge attribute costs and maxes, `none` = `float("inf")`
(`hunters.py` lines 839-900). -/
def borgeAttrTable : List (String × ℕ × Option ℕ) :=
  [("soul_of_ares", 1, none), ("essence_of_ylith", 1, none),
   ("spartan_lineage", 2, some 6), ("timeless_mastery", 3, some 5),
   ("helltouch_barrier", 2, some 10), ("lifedrain_inhalers", 2, some 10),
   ("explosive_punches", 3, some 6), ("book_of_baal", 3, some 6),
   ("superior_sensors", 2, some 6), ("atlas_protocol", 3, some 6),
   ("weakspot_analysis", 2, some 6), ("born_for_battle", 5, some 3),
   ("soul_of_athena", 15, some 1), ("soul_of_hermes", 2, some 20),
   ("soul_of_the_minotaur", 2, some 20)]

/-- Borge attribute dependencies (`hunters.py` lines 768-784). -/
def borgeDeps : List (String × List (String × ℕ)) :=
  [("soul_of_ares", []), ("essence_of_ylith", [("soul_of_ares", 1)]),
   ("spartan_lineage", [("essence_of_ylith", 1)]), ("timeless_mastery", [("spartan_lineage", 1)]),
   ("helltouch_barrier", [("soul_of_ares", 1)]), ("lifedrain_inhalers", [("helltouch_barrier", 1)]),
   ("explosive_punches", [("helltouch_barrier", 1)]), ("book_of_baal", [("soul_of_ares", 1)]),
   ("superior_sensors", [("book_of_baal", 1)]), ("atlas_protocol", [("superior_sensors", 1)]),
   ("weakspot_analysis", [("explosive_punches", 1)]), ("born_for_battle", [("spartan_lineage", 1)]),
   ("soul_of_athena", [("born_for_battle", 1)]), ("soul_of_hermes", [("weakspot_analysis", 1)]),
   ("soul_of_the_minotaur", [("atlas_protocol", 1)])]

/-- Borge point gates (`hunters.py` lines 787-794). -/
def borgeGates : List (String × ℕ) :=
  [("atlas_protocol", 75), ("weakspot_analysis", 75), ("born_for_battle", 75),
   ("soul_of_hermes", 150), ("soul_of_the_minotaur", 150), ("soul_of_athena", 180)]

/-- Borge generator class data.  Borge defines no `attribute_exclusions`
class attribute, so `getattr(self.hunter_class, 'attribute_exclusions', [])`
yields the empty list. -/
def borgeGen : GenClass :=
  { talents := borgeTalentTable.map Prod.fst,
    talentMax := fun t => borgeTalentTable.lookup t,
    requiresAllMaxed := ["legacy_of_ultima"],
    attrs := borgeAttrTable.map Prod.fst,
    attrCost := fun a => ((borgeAttrTable.lookup a).map Prod.fst).getD 0,
    attrMax := fun a => (borgeAttrTable.lookup a).bind Prod.snd,
    deps := fun a => borgeDeps.lookup a,
    pointGates := fun a => borgeGates.lookup a,
    exclusions := [] }

/-- Ozzy talent maxes (`hunters.py` lines 1470-1508). -/
def ozzyTalentTable : List (String × ℕ) :=
  [("death_is_my_companion", 2), ("tricksters_boon", 1), ("unfair_advantage", 5),
   ("thousand_needles", 10), ("omen_of_decay", 10), ("call_me_lucky_loot", 10),
   ("crippling_shots", 15), ("echo_bullets", 20), ("legacy_of_ultima", 50)]

/-- Ozzy attribute costs and maxes (`hunters.py` lines 1510-1570). -/
def ozzyAttrTable : List (String × ℕ × Option ℕ) :=
  [("living_off_the_land", 1, none), ("exo_piercers", 1, none),
   ("timeless_mastery", 3, some 5), ("shimmering_scorpion", 3, some 5),
   ("wings_of_ibu", 2, some 5), ("extermination_protocol", 2, some 5),
   ("soul_of_snek", 3, some 5), ("vectid_elixir", 2, some 10),
   ("cycle_of_death", 3, some 5), ("gift_of_medusa", 3, some 5),
   ("deal_with_death", 5, some 3), ("dance_of_dashes", 3, some 4),
   ("blessings_of_the_cat", 2, some 20), ("blessings_of_the_scarab", 2, some 20),
   ("blessings_of_the_sisters", 15, some 1)]

/-- Ozzy attribute dependencies (`hunters.py` lines 1439-1456). -/
def ozzyDeps : List (String × List (String × ℕ)) :=
  [("living_off_the_land", []), ("exo_piercers", [("living_off_the_land", 1)]),
   ("timeless_mastery", [("exo_piercers", 1)]), ("shimmering_scorpion", [("exo_piercers", 1)]),
   ("wings_of_ibu", [("living_off_the_land", 1)]),
   ("extermination_protocol", [("wings_of_ibu", 1)]),
   ("soul_of_snek", [("extermination_protocol", 1)]),
   ("vectid_elixir", [("extermination_protocol", 1)]),
   ("cycle_of_death", [("soul_of_snek", 1)]), ("gift_of_medusa", []),
   ("deal_with_death", []), ("dance_of_dashes", [("shimmering_scorpion", 1)]),
   ("blessings_of_the_cat", [("dance_of_dashes", 1)]),
   ("blessings_of_the_scarab", [("dance_of_dashes", 1)]),
   ("blessings_of_the_sisters", [("cycle_of_death", 1)])]

/-- Ozzy point gates (`hunters.py` lines 1458-1465). -/
def ozzyGates : List (String × ℕ) :=
  [("gift_of_medusa", 88), ("deal_with_death", 88), ("dance_of_dashes", 88),
   ("blessings_of_the_cat", 148), ("blessings_of_the_scarab", 148),
   ("blessings_of_the_sisters", 178)]

/-- Ozzy generator class data.  Ozzy defines no `attribute_exclusions`
class attribute either, so the list is empty. -/
def ozzyGen : GenClass :=
  { talents := ozzyTalentTable.map Prod.fst,
    talentMax := fun t => ozzyTalentTable.lookup t,
    requiresAllMaxed := ["legacy_of_ultima"],
    attrs := ozzyAttrTable.map Prod.fst,
    attrCost := fun a => ((ozzyAttrTable.lookup a).map Prod.fst).getD 0,
    attrMax := fun a => (ozzyAttrTable.lookup a).bind Prod.snd,
    deps := fun a => ozzyDeps.lookup a,
    pointGates := fun a => ozzyGates.lookup a,
    exclusions := [] }

/-- Knox talent maxes (`hunters.py` lines 2217-2255). -/
def knoxTalentTable : List (String × ℕ) :=
  [("death_is_my_companion", 2), ("calypsos_advantage", 5), ("unfair_advantage", 5),
   ("ghost_bullets", 15), ("omen_of_defeat", 10), ("call_me_lucky_loot", 10),
   ("presence_of_god", 10), ("finishing_move", 15), ("legacy_of_ultima", 50)]

/-- Knox attribute costs and maxes (`hunters.py` lines 2257-2298). -/
def knoxAttrTable : List (String × ℕ × Option ℕ) :=
  [("release_the_kraken", 1, none), ("space_pirate_armory", 2, some 50),
   ("soul_amplification", 1, some 100), ("serious_efficiency", 2, some 5),
   ("fortification_elixir", 2, some 10), ("a_pirates_life_for_knox", 3, some 10),
   ("dead_men_tell_no_tales", 2, some 10), ("passive_charge_tank", 4, some 10),
   ("shield_of_poseidon", 1, some 10), ("timeless_mastery", 3, some 5)]

/-- Knox attribute dependencies (`hunters.py` lines 2196-2207). -/
def knoxDeps : List (String × List (String × ℕ)) :=
  [("release_the_kraken", []), ("space_pirate_armory", [("release_the_kraken", 1)]),
   ("soul_amplification", [("release_the_kraken", 1)]),
   ("serious_efficiency", [("release_the_kraken", 1)]),
   ("fortification_elixir", [("release_the_kraken", 1)]),
   ("a_pirates_life_for_knox", [("space_pirate_armory", 1)]),
   ("dead_men_tell_no_tales", [("soul_amplification", 1)]),
   ("passive_charge_tank", [("serious_efficiency", 1)]),
   ("shield_of_poseidon", [("passive_charge_tank", 1)]),
   ("timeless_mastery", [("fortification_elixir", 1)])]

/-- Knox generator class data: `attribute_exclusions` is the literal empty
list (`hunters.py` lines 2210-2212), and Knox defines no
`attribute_point_gates`, so `getattr(..., {})` yields the empty dict. -/
def knoxGen : GenClass :=
  { talents := knoxTalentTable.map Prod.fst,
    talentMax := fun t => knoxTalentTable.lookup t,
    requiresAllMaxed := ["legacy_of_ultima"],
    attrs := knoxAttrTable.map Prod.fst,
    attrCost := fun a => ((knoxAttrTable.lookup a).map Prod.fst).getD 0,
    attrMax := fun a => (knoxAttrTable.lookup a).bind Prod.snd,
    deps := fun a => knoxDeps.lookup a,
    pointGates := fun _ => none,
    exclusions := [] }

/-- The generator class data per hunter kind, as passed into
`BuildGenerator(hunter_class, ...)`. -/
def hunterGenClass : HunterKind → GenClass
  | .Borge => borgeGen
  | .Ozzy => ozzyGen
  | .Knox => knoxGen

/-! ## Top-10 tracking (run_optimization.py, optimize_builds) -/

/-- The aggregate metrics of one completed build result that the top-10
tracking reads (`run_optimization.py` lines 793-805). -/
structure BuildRes where
  max_stage : ℚ
  avg_stage : ℚ
  avg_loot_per_hour : ℚ
  avg_damage : ℚ
  avg_xp : ℚ
deriving DecidableEq, Repr

/-- A heap entry `(metric_value, id(build_result), build_result)`
(`run_optimization.py` line 574); the id component is an insertion
counter standing in for CPython's distinct object ids, so the tuple
comparison never reaches the dict. -/
abbrev HeapEntry := ℚ × ℕ × BuildRes

abbrev Top10Heap := List HeapEntry

/-- The strict lexicographic order `heapq` uses on `(metric_value, id)`. -/
def entryKeyLt (x y : HeapEntry) : Bool :=
  x.1 < y.1 ∨ (x.1 = y.1 ∧ x.2.1 < y.2.1)

/-- `heap[0]`: the key-least entry of the heap multiset (`heapq` keeps it
at index 0). -/
def heapMin : Top10Heap → Option HeapEntry
  | [] => none
  | e :: es => some (es.foldl (fun m x => if entryKeyLt x m then x else m) e)

/-- `add_to_top_10` (`run_optimization.py` lines 570-576): push while the
heap holds fewer than 10 entries, else `heapq.heapreplace` (pop the
minimum, push the new entry) when the new metric value beats the current
minimum. -/
def add_to_top_10 (heap : Top10Heap) (metric : BuildRes → ℚ) (idv : ℕ) (b : BuildRes) :
    Top10Heap :=
  let v := metric b
  if heap.length < 10 then (v, idv, b) :: heap
  else
    match heapMin heap with
    | none => heap
    | some m => if v > m.1 then (v, idv, b) :: heap.erase m else heap

/-- The five top-10 min-heaps (`run_optimization.py` lines 563-568) plus
the id counter. -/
structure TopState where
  top_by_max_stage : Top10Heap
  top_by_avg_stage : Top10Heap
  top_by_loot : Top10Heap
  top_by_damage : Top10Heap
  top_by_xp : Top10Heap
  nextId : ℕ

/-- The initial empty heaps. -/
def emptyTopState : TopState :=
  { top_by_max_stage := [], top_by_avg_stage := [], top_by_loot := [],
    top_by_damage := [], top_by_xp := [], nextId := 0 }

/-- `update_top_lists` (`run_optimization.py` lines 578-585). -/
def update_top_lists (st : TopState) (b : BuildRes) : TopState :=
  { top_by_max_stage := add_to_top_10 st.top_by_max_stage (fun r => r.max_stage) st.nextId b,
    top_by_avg_stage := add_to_top_10 st.top_by_avg_stage (fun r => r.avg_stage) st.nextId b,
    top_by_loot := add_to_top_10 st.top_by_loot (fun r => r.avg_loot_per_hour) st.nextId b,
    top_by_damage := add_to_top_10 st.top_by_damage (fun r => r.avg_damage) st.nextId b,
    top_by_xp := add_to_top_10 st.top_by_xp (fun r => r.avg_xp) st.nextId b,
    nextId := st.nextId + 1 }

/-- The top-10 side of processing one tier's completed results
(`run_optimization.py` lines 806-809 and 884-886): each result feeds
`update_top_lists` only when `is_final_tier` holds. -/
def process_tier (st : TopState) (results : List BuildRes) (isFinal : Bool) : TopState :=
  results.foldl (fun s b => if isFinal then update_top_lists s b else s) st

/-- The tier loop of `optimize_builds` restricted to its top-10 effect,
with `is_final_tier = (tier_idx == len(tiers) - 1)`
(`run_optimization.py` line 640). -/
def tiers_loop (total : ℕ) : ℕ → List (List BuildRes) → TopState → TopState
  | _, [], st => st
  | tierIdx, results :: rest, st =>
    tiers_loop total (tierIdx + 1) rest
      (process_tier st results (decide (tierIdx = total - 1)))

/-- The top-10 state after `optimize_builds` has processed every tier. -/
def optimize_top_state (tiers : List (List BuildRes)) : TopState :=
  tiers_loop tiers.length 0 tiers emptyTopState

/-- `sorted([item[2] for item in heap], key=metric, reverse=True)`
(`finalize_top_lists`, `run_optimization.py` lines 587-599), modelled
with insertion sort under the descending-metric order. -/
def finalize_list (metric : BuildRes → ℚ) (heap : Top10Heap) : List BuildRes :=
  (heap.map fun e => e.2.2).insertionSort fun a b => metric b ≤ metric a

/-- The five sorted top-10 lists of the final report
(`run_optimization.py` lines 984 and 1012-1016). -/
def optimize_top_lists (tiers : List (List BuildRes)) :
    List BuildRes × List BuildRes × List BuildRes × List BuildRes × List BuildRes :=
  let st := optimize_top_state tiers
  (finalize_list (fun r => r.max_stage) st.top_by_max_stage,
   finalize_list (fun r => r.avg_stage) st.top_by_avg_stage,
   finalize_list (fun r => r.avg_loot_per_hour) st.top_by_loot,
   finalize_list (fun r => r.avg_damage) st.top_by_damage,
   finalize_list (fun r => r.avg_xp) st.top_by_xp)

/-- What the claim asserts of one finalized top-10 list: sorted in
descending metric order, at most 10 entries, and every entry drawn from
the final tier's completed results. -/
def top10_ok (metric : BuildRes → ℚ) (finalResults : List BuildRes) (L : List BuildRes) : Prop :=
  L.Sorted (fun a b => metric b ≤ metric a) ∧ L.length ≤ 10 ∧ L.Forall (· ∈ finalResults)

/-- The heap-level invariant behind `top10_ok`: at most 10 entries, every
entry's build drawn from the final tier's results. -/
def heapInv (F : List BuildRes) (h : Top10Heap) : Prop :=
  h.length ≤ 10 ∧ ∀ e ∈ h, e.2.2 ∈ F

/-- `heapInv` across all five heaps. -/
def topInv (F : List BuildRes) (st : TopState) : Prop :=
  heapInv F st.top_by_max_stage ∧ heapInv F st.top_by_avg_stage ∧
    heapInv F st.top_by_loot ∧ heapInv F st.top_by_damage ∧ heapInv F st.top_by_xp

/-! ## Candidate deduplication (run_optimization.py, optimize_builds) -/

/-- A talent or attribute allocation dict as the generator's enumeration
emits it: an association list whose key set is the hunter's full talent
(or attribute) table, zero levels included. -/
abbrev Alloc := List (String × ℕ)

/-- Code-point-wise lexicographic order on char lists: the order
`json.dumps(..., sort_keys=True)` sorts dict keys by (the keys here are
ASCII). -/
def charListLe : List Char → List Char → Bool
  | [], _ => true
  | _ :: _, [] => false
  | a :: as, b :: bs =>
    if a.val < b.val then true
    else if b.val < a.val then false
    else charListLe as bs

/-- Key comparison for the canonical serialization. -/
def strKeyLe (a b : String) : Bool := charListLe a.data b.data

/-- The canonical (key-sorted) form `json.dumps(..., sort_keys=True)`
gives one allocation dict. -/
def sortByKey (l : Alloc) : Alloc :=
  l.insertionSort fun a b => strKeyLe a.1 b.1

/-- The deduplication key of one candidate (`run_optimization.py` lines
696-707): `hash(json.dumps(build_config, sort_keys=True))`, where
`build_config` holds the candidate's talent and attribute dicts plus the
fixed `mods`/`inscryptions` and the run-constant relics, gems and bonuses
of `base_config` - the latter contribute the constant component `rest`.
The key is modelled up to the injective canonical serialization; Python's
`hash` is a function of that string, which is all the skip direction of
the claim needs. -/
def dedup_key (rest : String) (c : Alloc × Alloc) : Alloc × Alloc × String :=
  (sortByKey c.1, sortByKey c.2, rest)

/-- The dedup state threaded through the candidate loop: the
`tested_builds` set, the accepted `batch_metadata`, and the
`duplicates_skipped` counter. -/
structure DedupState where
  tested : List (Alloc × Alloc × String)
  batch : List (Alloc × Alloc)
  duplicates_skipped : ℕ
deriving DecidableEq, Repr

/-- Processing one candidate (`run_optimization.py` lines 705-716): a key
already in `tested_builds` is skipped and counted in
`duplicates_skipped`; an unseen key is recorded and the candidate is
appended to the batch. -/
def process_candidate (rest : String) (st : DedupState) (c : Alloc × Alloc) : DedupState :=
  let key := dedup_key rest c
  if key ∈ st.tested then
    { st with duplicates_skipped := st.duplicates_skipped + 1 }
  else
    { st with tested := key :: st.tested, batch := st.batch ++ [c] }

/-- The candidate loop over the tier's talent-combo × attr-combo list
(`run_optimization.py` lines 693-716), restricted to its dedup effect. -/
def process_candidates (rest : String) (cs : List (Alloc × Alloc)) (st : DedupState) :
    DedupState :=
  cs.foldl (process_candidate rest) st

/-- The claim's canonical identity of a candidate: its key-sorted
non-zero allocation entries. -/
def nonZeroSorted (l : Alloc) : Alloc :=
  sortByKey (l.filter fun p => p.2 ≠ 0)

/-! ## Theorems -/

theorem sim_final_stage_le (stageCap n : ℕ) : sim_final_stage stageCap n ≤ stageCap := by
  induction n with
  | zero => exact Nat.zero_le _
  | succ n ih =>
    unfold sim_final_stage
    by_cases h : stageCap ≤ sim_final_stage stageCap n
    · simpa [h] using ih
    · simp only [h, if_false]
      omega

/-- C1: the driver's tier budgets.  The talent budget is `floor(level * f)`
as claimed, but the attribute budget is also `floor(level * f)` - the
factor 3 the spec prescribes is missing.  At level 100 and tier fraction
1/2 the driver computes 50 attribute points where the claim requires 150. -/
theorem C1_attr_budget_missing_factor :
    tierTalentPoints 100 (1/2) = 50 ∧
    tierAttributePoints 100 (1/2) = 50 ∧
    specAttributePoints 100 (1/2) = 150 ∧
    tierAttributePoints 100 (1/2) ≠ specAttributePoints 100 (1/2) := by
  have h1 : tierTalentPoints 100 (1/2) = 50 := by
    unfold tierTalentPoints
    norm_num
  have h2 : tierAttributePoints 100 (1/2) = 50 := by
    unfold tierAttributePoints
    norm_num
  have h3 : specAttributePoints 100 (1/2) = 150 := by
    unfold specAttributePoints
    norm_num
  refine ⟨h1, h2, h3, ?_⟩
  rw [h2, h3]
  decide

/-- C2: at the stage cap the hunter is forced to hp 0 and `times_revived`
is reset to `death_is_my_companion` - which suppresses the base-class
revive (last conjunct), but NOT Ozzy's: with one level of
`blessings_of_the_sisters`, `Ozzy.on_death` still sees
`times_revived < death_is_my_companion + blessings_of_the_sisters`, so the
forced-dead Ozzy revives to 80% max hp and appends the cap stage to the
revive log, contradicting the claim and the source comment
"Prevent revive at max_stage". -/
theorem C2_cap_revive_not_suppressed_for_ozzy :
    is_dead (complete_stage 1 ozzyCapState) = true ∧
    (on_death_ozzy (complete_stage 1 ozzyCapState)).hp = 80 ∧
    (on_death_ozzy (complete_stage 1 ozzyCapState)).reviveLog = [210] ∧
    is_dead (on_death_ozzy (complete_stage 1 ozzyCapState)) = false ∧
    on_death_base (complete_stage 1 ozzyCapState) = complete_stage 1 ozzyCapState := by
  refine ⟨?_, ?_, ?_, ?_, ?_⟩ <;>
    norm_num [complete_stage, is_dead, on_death_ozzy, on_death_base, ozzyCapState]

/-- C10: `load_build` pins Ozzy's stage cap to 210 regardless of the
config, while Borge and Knox get `meta["irl_max_stage"]` with default 1000;
and under the spec-modelled run loop an Ozzy run's final stage never
exceeds 210. -/
theorem C10_ozzy_stage_cap (cfg : ConfigDict) (n : ℕ) :
    load_build_max_stage "Ozzy" cfg = 210 ∧
    load_build_max_stage "Borge" cfg =
      ((if cfg.hasMeta then cfg.metaIrlMaxStage else none).getD 1000) ∧
    load_build_max_stage "Knox" cfg =
      ((if cfg.hasMeta then cfg.metaIrlMaxStage else none).getD 1000) ∧
    sim_final_stage (load_build_max_stage "Ozzy" cfg) n ≤ 210 := by
  refine ⟨rfl, ?_, ?_, ?_⟩
  · simp [load_build_max_stage]
  · simp [load_build_max_stage]
  · have h : load_build_max_stage "Ozzy" cfg = 210 := rfl
    rw [h]
    exact sim_final_stage_le 210 n

theorem gadget_loot_zero : gadget_loot 0 = 1 := by norm_num [gadget_loot]

theorem orElseNonzero_zero_right (n : ℕ) : orElseNonzero n 0 = n := by
  unfold orElseNonzero
  split <;> omega

/-- C3: for every hunter kind and final stage S ≥ 1, `calculate_final_loot`
sets each per-resource loot to `BASE × ((mult^S − 1)/(mult − 1)) × 10 ×
compute_loot_multiplier`, with the claimed per-kind stage multipliers, and
sets `total_loot` exactly to the sum of the three per-resource loots. -/
theorem C3_final_loot_formula (b : LootBuild) (S : ℕ) (hS : 1 ≤ S) (prev : LootTotals) :
    (stage_loot_mult HunterKind.Borge = 1.051 ∧ stage_loot_mult HunterKind.Ozzy = 1.059 ∧
      stage_loot_mult HunterKind.Knox = 1.074) ∧
    (calculate_final_loot b S prev).loot_common =
      loot_base_common b.kind * ((stage_loot_mult b.kind ^ S - 1) / (stage_loot_mult b.kind - 1))
        * 10 * compute_loot_multiplier b ∧
    (calculate_final_loot b S prev).loot_uncommon =
      loot_base_uncommon b.kind * ((stage_loot_mult b.kind ^ S - 1) / (stage_loot_mult b.kind - 1))
        * 10 * compute_loot_multiplier b ∧
    (calculate_final_loot b S prev).loot_rare =
      loot_base_rare b.kind * ((stage_loot_mult b.kind ^ S - 1) / (stage_loot_mult b.kind - 1))
        * 10 * compute_loot_multiplier b ∧
    (calculate_final_loot b S prev).total_loot =
      (calculate_final_loot b S prev).loot_common + (calculate_final_loot b S prev).loot_uncommon
        + (calculate_final_loot b S prev).loot_rare := by
  have hpos : ¬ S ≤ 0 := by omega
  have hgt : stage_loot_mult b.kind > 1.0 := by
    cases hk : b.kind <;> norm_num [stage_loot_mult, hk]
  refine ⟨⟨rfl, rfl, rfl⟩, ?_, ?_, ?_, ?_⟩ <;>
    · simp only [calculate_final_loot, hpos, if_false, gt_iff_lt]
      try rw [if_pos (by exact_mod_cast hgt)]
      try ring_nf

/-- C3 witness: at stage 1 the hypothesis `1 ≤ S` holds and the empty
Borge build satisfies the total-loot decomposition. -/
theorem C3_final_loot_formula_witness :
    1 ≤ 1 ∧
    (calculate_final_loot emptyLootBuild 1 zeroLootTotals).total_loot =
      (calculate_final_loot emptyLootBuild 1 zeroLootTotals).loot_common +
      (calculate_final_loot emptyLootBuild 1 zeroLootTotals).loot_uncommon +
      (calculate_final_loot emptyLootBuild 1 zeroLootTotals).loot_rare :=
  ⟨Nat.le_refl 1,
    (C3_final_loot_formula emptyLootBuild 1 (Nat.le_refl 1) zeroLootTotals).2.2.2.2⟩

theorem timelessMasteryFactor_set_gadgets (b : LootBuild) (g : DictN) :
    timelessMasteryFactor { b with gadgets := g } = timelessMasteryFactor b := rfl

theorem shardMilestoneFactor_set_gadgets (b : LootBuild) (g : DictN) :
    shardMilestoneFactor { b with gadgets := g } = shardMilestoneFactor b := rfl

theorem relic7Factor_set_gadgets (b : LootBuild) (g : DictN) :
    relic7Factor { b with gadgets := g } = relic7Factor b := rfl

theorem research81Factor_set_gadgets (b : LootBuild) (g : DictN) :
    research81Factor { b with gadgets := g } = research81Factor b := rfl

theorem inscryptionLootFactor_set_gadgets (b : LootBuild) (g : DictN) :
    inscryptionLootFactor { b with gadgets := g } = inscryptionLootFactor b := rfl

theorem loopModFactor_set_gadgets (b : LootBuild) (g : DictN) :
    loopModFactor { b with gadgets := g } = loopModFactor b := rfl

theorem constructionMilestoneFactor_set_gadgets (b : LootBuild) (g : DictN) :
    constructionMilestoneFactor { b with gadgets := g } = constructionMilestoneFactor b := rfl

theorem diamondCardFactor_set_gadgets (b : LootBuild) (g : DictN) :
    diamondCardFactor { b with gadgets := g } = diamondCardFactor b := rfl

theorem diamondLootFactor_set_gadgets (b : LootBuild) (g : DictN) :
    diamondLootFactor { b with gadgets := g } = diamondLootFactor b := rfl

theorem iapTravpackFactor_set_gadgets (b : LootBuild) (g : DictN) :
    iapTravpackFactor { b with gadgets := g } = iapTravpackFactor b := rfl

theorem ultimaFactor_set_gadgets (b : LootBuild) (g : DictN) :
    ultimaFactor { b with gadgets := g } = ultimaFactor b := rfl

theorem attractionGemFactor_set_gadgets (b : LootBuild) (g : DictN) :
    attractionGemFactor { b with gadgets := g } = attractionGemFactor b := rfl

theorem attractionNode3Factor_set_gadgets (b : LootBuild) (g : DictN) :
    attractionNode3Factor { b with gadgets := g } = attractionNode3Factor b := rfl

theorem presenceOfGodFactor_set_gadgets (b : LootBuild) (g : DictN) :
    presenceOfGodFactor { b with gadgets := g } = presenceOfGodFactor b := rfl

theorem skill6LootFactor_set_gadgets (b : LootBuild) (g : DictN) :
    skill6LootFactor { b with gadgets := g } = skill6LootFactor b := rfl

theorem wastarianFactor_set_gadgets (b : LootBuild) (g : DictN) :
    wastarianFactor { b with gadgets := g } = wastarianFactor b := rfl

theorem anchorLootFactor_anchor_only (b : LootBuild) (n : ℕ) :
    anchorLootFactor { b with gadgets := [("anchor", n)] } = gadget_loot n := by
  simp [anchorLootFactor, lookN, List.lookup, orElseNonzero_zero_right]

theorem anchorLootFactor_no_gadgets (b : LootBuild) :
    anchorLootFactor { b with gadgets := [] } = 1 := by
  simp [anchorLootFactor, lookN, List.lookup, orElseNonzero, gadget_loot_zero]

theorem hunterGadgetLootFactor_anchor_only (b : LootBuild) (n : ℕ) :
    hunterGadgetLootFactor { b with gadgets := [("anchor", n)] } = 1 := by
  rcases b with ⟨k, _, _, _, _, _, _, _, _, _⟩
  cases k <;>
    simp [hunterGadgetLootFactor, lookN, List.lookup, orElseNonzero, gadget_loot_zero]

theorem hunterGadgetLootFactor_no_gadgets (b : LootBuild) :
    hunterGadgetLootFactor { b with gadgets := [] } = 1 := by
  rcases b with ⟨k, _, _, _, _, _, _, _, _, _⟩
  cases k <;>
    simp [hunterGadgetLootFactor, lookN, List.lookup, orElseNonzero, gadget_loot_zero]

/-- Changing only the gadget dict from empty to the anchor at level n
multiplies the composed loot multiplier by exactly `gadget_loot n`. -/
theorem loot_mult_anchor_factor (b : LootBuild) (n : ℕ) :
    compute_loot_multiplier { b with gadgets := [("anchor", n)] } =
      compute_loot_multiplier { b with gadgets := [] } * gadget_loot n := by
  unfold compute_loot_multiplier
  simp only [timelessMasteryFactor_set_gadgets, shardMilestoneFactor_set_gadgets,
    relic7Factor_set_gadgets, research81Factor_set_gadgets, inscryptionLootFactor_set_gadgets,
    loopModFactor_set_gadgets, constructionMilestoneFactor_set_gadgets,
    diamondCardFactor_set_gadgets, diamondLootFactor_set_gadgets,
    iapTravpackFactor_set_gadgets, ultimaFactor_set_gadgets, attractionGemFactor_set_gadgets,
    attractionNode3Factor_set_gadgets, presenceOfGodFactor_set_gadgets,
    skill6LootFactor_set_gadgets, wastarianFactor_set_gadgets,
    anchorLootFactor_anchor_only, anchorLootFactor_no_gadgets,
    hunterGadgetLootFactor_anchor_only, hunterGadgetLootFactor_no_gadgets]
  ring

theorem loot_mult_empty : compute_loot_multiplier { emptyLootBuild with gadgets := [] } = 1 := by
  norm_num [compute_loot_multiplier, timelessMasteryFactor, shardMilestoneFactor,
    relic7Factor, research81Factor, inscryptionLootFactor, hunterGadgetLootFactor,
    anchorLootFactor, loopModFactor, constructionMilestoneFactor, diamondCardFactor,
    diamondLootFactor, iapTravpackFactor, ultimaFactor, attractionGemFactor,
    attractionNode3Factor, presenceOfGodFactor, skill6LootFactor, wastarianFactor,
    gadget_loot, lookN, lookZ, orElseNonzero, emptyLootBuild, List.lookup]

/-- C4 counterexample: the claim says a gadget at level 1 contributes the
factor `gadget_compound 1 = 1.003` to the loot multiplier, but on a Borge
build whose only nonzero ability is the anchor gadget at level 1 the code
produces `1.005` (the loot path uses `1.005^n * 1.02^(n // 10)`). -/
theorem C4_counterexample :
    compute_loot_multiplier anchorOnlyBuild = 1.005 ∧
    gadget_compound 1 = 1.003 ∧
    compute_loot_multiplier anchorOnlyBuild ≠ gadget_compound 1 := by
  have h1 : compute_loot_multiplier anchorOnlyBuild = 1.005 := by
    have ha : anchorOnlyBuild = { emptyLootBuild with gadgets := [("anchor", 1)] } := rfl
    rw [ha, loot_mult_anchor_factor, loot_mult_empty]
    norm_num [gadget_loot]
  have h2 : gadget_compound 1 = 1.003 := by norm_num [gadget_compound]
  refine ⟨h1, h2, ?_⟩
  rw [h1, h2]
  norm_num

/-- C4 amended: in the loot-multiplier composition each loot-contributing
gadget at level n contributes the multiplicative factor
`gadget_loot n = 1.005^n * 1.02^(n / 10)` (not `gadget_compound`): shown
for the anchor gadget, which applies to every hunter kind, relative to the
same build with no gadgets equipped. -/
theorem C4_amended_gadget_factor (b : LootBuild) (n : ℕ) :
    compute_loot_multiplier { b with gadgets := [("anchor", n)] } =
      compute_loot_multiplier { b with gadgets := [] } * gadget_loot n :=
  loot_mult_anchor_factor b n

/-- C5 counterexample: with wrench and zaptron at gadget level 1, the code
multiplies hp by `gadget_mult 1 * gadget_mult 1 = 1.003^2 = 1.006009`,
while the claim's `gadget_compound` of the summed levels gives
`gadget_compound 2 = 1.006`: on a build with base hp 43 the two disagree. -/
theorem C5_counterexample :
    borge_max_hp twoGadgetBuild = 43 * (1.003 * 1.003) ∧
    borge_max_hp_claim twoGadgetBuild = 43 * 1.006 ∧
    borge_max_hp twoGadgetBuild ≠ borge_max_hp_claim twoGadgetBuild := by
  refine ⟨?_, ?_, ?_⟩ <;>
    norm_num [borge_max_hp, borge_max_hp_claim, gadget_mult, gadget_compound, twoGadgetBuild]

/-- C5 amended: the derived Borge max hp is the base term
`43 + hp_upgrade * (2.50 + 0.01 * floor(hp_upgrade / 5))` multiplied by the
soul-of-ares, disk-of-dawn, creation-node and legacy-of-ultima layers and
by the PRODUCT of `gadget_mult` over the three individual gadget levels,
with the flat inscryption terms `i3 * 6` and `i27 * 59.15` added after all
multipliers. -/
theorem C5_amended_max_hp (b : BorgeStatBuild) :
    borge_max_hp b = borge_max_hp_amended b := by
  unfold borge_max_hp borge_max_hp_amended
  ring

theorem sum_map_bump_le (f : String → ℕ) (k : String) :
    ∀ l : List String, l.Nodup → (l.map (bump f k)).sum ≤ (l.map f).sum + 1 := by
  intro l
  induction l with
  | nil => intro h; simp
  | cons a t ih =>
    intro hnd
    rcases List.nodup_cons.mp hnd with ⟨ha, ht⟩
    have htail := ih ht
    by_cases hk : a = k
    · have hmap : t.map (bump f k) = t.map f := by
        apply List.map_congr_left
        intro x hx
        have hxk : x ≠ k := by
          intro he
          apply ha
          rw [hk, ← he]
          exact hx
        simp [bump, hxk]
      have hhead : bump f k a = f a + 1 := by simp [bump, hk]
      simp only [List.map_cons, List.sum_cons, hmap, hhead]
      omega
    · have hhead : bump f k a = f a := by simp [bump, hk]
      simp only [List.map_cons, List.sum_cons, hhead]
      omega

theorem talent_walk_loop_sum_le (g : GenClass) (o : Oracle) (hnd : g.talents.Nodup) :
    ∀ (fuel i : ℕ) (result : String → ℕ),
      (g.talents.map (talent_walk_loop g o fuel i result)).sum ≤
        (g.talents.map result).sum + fuel := by
  intro fuel
  induction fuel with
  | zero =>
    intro i result
    simp [talent_walk_loop]
  | succ r ih =>
    intro i result
    have h2 : ∀ c, (g.talents.map (bump result c)).sum ≤ (g.talents.map result).sum + 1 :=
      fun c => sum_map_bump_le result c g.talents hnd
    simp only [talent_walk_loop]
    split
    · omega
    · refine le_trans (ih _ _) ?_
      refine le_trans (Nat.add_le_add_right (h2 _) r) ?_
      omega

theorem guard_spent_le (attrs : List String) (cost : String → ℕ) (p : ℕ) (f : String → ℕ) :
    (attrs.map fun a =>
      (if (attrs.map fun x => f x * cost x).sum > p then (fun _ : String => 0) else f) a
        * cost a).sum ≤ p := by
  by_cases h : (attrs.map fun x => f x * cost x).sum > p
  · simp [h]
  · rw [if_neg h]
    omega

theorem random_walk_attr_spent_le (g : GenClass) (attributePoints : ℕ) (o : Oracle) :
    (g.attrs.map fun a =>
      random_walk_attr_allocation g attributePoints o a * g.attrCost a).sum
        ≤ attributePoints :=
  guard_spent_le g.attrs g.attrCost attributePoints
    (attr_walk_loop g o 10000 0
      { result := fun _ => 0, remaining := (attributePoints : ℤ), stuck := 0 }).result

/-- C6: for every generator class data, level and random choices, the
(talents, attributes) pair emitted by the random-walk sampling satisfies
`Σ talent levels ≤ level` (the talent walk spends one point per pick from
a budget of `level`) and `Σ attribute level × cost ≤ 3 × level` (enforced
by the final overspend guard, which zeroes any allocation the fallback
overspent). -/
theorem C6_budget_conservation (g : GenClass) (level : ℕ) (o o' : Oracle)
    (hnd : g.talents.Nodup) :
    (g.talents.map (random_walk_talent_allocation g (generatorTalentPoints level) o)).sum
        ≤ level ∧
    (g.attrs.map fun a =>
      random_walk_attr_allocation g (generatorAttributePoints level) o' a * g.attrCost a).sum
        ≤ 3 * level := by
  constructor
  · have h := talent_walk_loop_sum_le g o hnd (generatorTalentPoints level) 0 (fun _ => 0)
    have h0 : (g.talents.map (fun _ : String => 0)).sum = 0 := by simp
    unfold generatorTalentPoints at h
    unfold random_walk_talent_allocation generatorTalentPoints
    omega
  · have h := random_walk_attr_spent_le g (generatorAttributePoints level) o'
    unfold generatorAttributePoints at h ⊢
    omega

/-- C6 witness: the Borge class data has duplicate-free talents, and at
level 3 with the constant-zero oracle both budget bounds hold. -/
theorem C6_budget_conservation_witness :
    borgeGen.talents.Nodup ∧
    ((borgeGen.talents.map
        (random_walk_talent_allocation borgeGen (generatorTalentPoints 3) (fun _ => 0))).sum
          ≤ 3 ∧
      (borgeGen.attrs.map fun a =>
        random_walk_attr_allocation borgeGen (generatorAttributePoints 3) (fun _ => 0) a *
          borgeGen.attrCost a).sum ≤ 3 * 3) :=
  ⟨by decide, C6_budget_conservation borgeGen 3 (fun _ => 0) (fun _ => 0) (by decide)⟩

/-- C7: for every hunter class the `attribute_exclusions` list the random
walk consults is empty (Borge and Ozzy define none, so `getattr(...,[])`
yields `[]`; Knox's is the literal empty list), so every attribute
allocation the walk emits - residual-point fallback included - has at most
one nonzero member of every mutually-exclusive pair. -/
theorem C7_exclusion_disjointness (k : HunterKind) (level : ℕ) (o : Oracle) :
    (hunterGenClass k).exclusions = [] ∧
    (hunterGenClass k).exclusions.Forall fun p =>
      ¬(0 < random_walk_attr_allocation (hunterGenClass k)
            (generatorAttributePoints level) o p.1 ∧
        0 < random_walk_attr_allocation (hunterGenClass k)
            (generatorAttributePoints level) o p.2) := by
  cases k <;> exact ⟨rfl, trivial⟩

theorem foldl_choose_mem (p : HeapEntry → HeapEntry → Bool) :
    ∀ (es : List HeapEntry) (e : HeapEntry),
      es.foldl (fun m x => if p x m then x else m) e ∈ e :: es := by
  intro es
  induction es with
  | nil =>
    intro e
    simp
  | cons a t ih =>
    intro e
    simp only [List.foldl_cons]
    rcases List.mem_cons.mp (ih (if p a e then a else e)) with h | h
    · rw [h]
      by_cases hp : p a e <;> simp [hp]
    · exact List.mem_cons_of_mem _ (List.mem_cons_of_mem _ h)

theorem heapMin_mem (h : Top10Heap) (m : HeapEntry) (hm : heapMin h = some m) : m ∈ h := by
  cases h with
  | nil => simp [heapMin] at hm
  | cons e es =>
    simp only [heapMin, Option.some.injEq] at hm
    rw [← hm]
    exact foldl_choose_mem entryKeyLt es e

theorem add_to_top_10_inv (F : List BuildRes) (heap : Top10Heap) (metric : BuildRes → ℚ)
    (idv : ℕ) (b : BuildRes) (hb : b ∈ F) (hinv : heapInv F heap) :
    heapInv F (add_to_top_10 heap metric idv b) := by
  obtain ⟨hlen, hmem⟩ := hinv
  unfold add_to_top_10 heapInv
  by_cases hl : heap.length < 10
  · rw [if_pos hl]
    refine ⟨by simp only [List.length_cons]; omega, ?_⟩
    intro e he
    rcases List.mem_cons.mp he with rfl | he2
    · exact hb
    · exact hmem e he2
  · rw [if_neg hl]
    split
    · exact ⟨hlen, hmem⟩
    · rename_i m hm
      split
      · have hmmem := heapMin_mem heap m hm
        have hle : (heap.erase m).length = heap.length - 1 := List.length_erase_of_mem hmmem
        have hpos : 1 ≤ heap.length := List.length_pos.mpr (List.ne_nil_of_mem hmmem)
        refine ⟨by simp only [List.length_cons, hle]; omega, ?_⟩
        intro e he
        rcases List.mem_cons.mp he with rfl | he2
        · exact hb
        · exact hmem e (List.mem_of_mem_erase he2)
      · exact ⟨hlen, hmem⟩

theorem update_top_lists_inv (F : List BuildRes) (st : TopState) (b : BuildRes)
    (hb : b ∈ F) (hinv : topInv F st) : topInv F (update_top_lists st b) := by
  obtain ⟨h1, h2, h3, h4, h5⟩ := hinv
  exact ⟨add_to_top_10_inv F _ _ _ _ hb h1, add_to_top_10_inv F _ _ _ _ hb h2,
    add_to_top_10_inv F _ _ _ _ hb h3, add_to_top_10_inv F _ _ _ _ hb h4,
    add_to_top_10_inv F _ _ _ _ hb h5⟩

theorem process_tier_false (st : TopState) (results : List BuildRes) :
    process_tier st results false = st := by
  induction results generalizing st with
  | nil => rfl
  | cons b t ih =>
    show List.foldl _ _ (b :: t) = st
    rw [List.foldl_cons]
    simp only [Bool.false_eq_true, if_false]
    exact ih st

theorem process_tier_inv (F : List BuildRes) (isFinal : Bool) :
    ∀ (results : List BuildRes) (st : TopState),
      (∀ b ∈ results, b ∈ F) → topInv F st → topInv F (process_tier st results isFinal) := by
  intro results
  induction results with
  | nil =>
    intro st _ hinv
    exact hinv
  | cons b t ih =>
    intro st hres hinv
    have hstep : topInv F (if isFinal then update_top_lists st b else st) := by
      cases isFinal
      · simpa using hinv
      · simpa using update_top_lists_inv F st b (hres b (List.mem_cons_self b t)) hinv
    show topInv F (List.foldl _ _ (b :: t))
    rw [List.foldl_cons]
    exact ih _ (fun x hx => hres x (List.mem_cons_of_mem _ hx)) hstep

theorem tiers_loop_inv (F : List BuildRes) (total : ℕ) :
    ∀ (rest : List (List BuildRes)) (tierIdx : ℕ) (st : TopState),
      (∀ j, tierIdx + j = total - 1 → ∀ b ∈ rest.getD j [], b ∈ F) →
      topInv F st → topInv F (tiers_loop total tierIdx rest st) := by
  intro rest
  induction rest with
  | nil =>
    intro _ st _ hinv
    exact hinv
  | cons results t ih =>
    intro tierIdx st hj hinv
    show topInv F (tiers_loop total (tierIdx + 1) t _)
    apply ih
    · intro j hjeq b hb
      refine hj (j + 1) (by omega) b ?_
      simpa using hb
    · by_cases he : tierIdx = total - 1
      · have hres : ∀ b ∈ results, b ∈ F := by
          intro b hb
          refine hj 0 (by omega) b ?_
          simpa using hb
        exact process_tier_inv F _ results st hres hinv
      · rw [decide_eq_false he, process_tier_false]
        exact hinv

theorem optimize_top_state_inv (tiers : List (List BuildRes)) :
    topInv (tiers.getD (tiers.length - 1) []) (optimize_top_state tiers) := by
  apply tiers_loop_inv
  · intro j hj b hb
    have hje : j = tiers.length - 1 := by omega
    rwa [hje] at hb
  · refine ⟨⟨?_, ?_⟩, ⟨?_, ?_⟩, ⟨?_, ?_⟩, ⟨?_, ?_⟩, ⟨?_, ?_⟩⟩ <;>
      simp [emptyTopState]

theorem finalize_top10_ok (metric : BuildRes → ℚ) (F : List BuildRes) (h : Top10Heap)
    (hinv : heapInv F h) : top10_ok metric F (finalize_list metric h) := by
  obtain ⟨hlen, hmem⟩ := hinv
  refine ⟨?_, ?_, ?_⟩
  · haveI ht : IsTotal BuildRes (fun a b => metric b ≤ metric a) :=
      ⟨fun a b => le_total (metric b) (metric a)⟩
    haveI htr : IsTrans BuildRes (fun a b => metric b ≤ metric a) :=
      ⟨fun a b c h1 h2 => le_trans h2 h1⟩
    exact List.sorted_insertionSort _ _
  · have hperm := List.perm_insertionSort
      (fun a b => metric b ≤ metric a) (h.map fun e => e.2.2)
    have hlen2 := hperm.length_eq
    unfold finalize_list
    rw [hlen2, List.length_map]
    exact hlen
  · rw [List.forall_iff_forall_mem]
    intro b hb
    have hb2 : b ∈ h.map fun e => e.2.2 :=
      (List.perm_insertionSort _ _).subset hb
    rcases List.mem_map.mp hb2 with ⟨e, he, rfl⟩
    exact hmem e he

/-- C8: after the optimizer driver completes, each of the five top-10
lists (by max_stage, avg_stage, loot per hour, damage, xp) is sorted in
descending order of its metric, contains at most 10 entries, and contains
only build results that were evaluated in the final tier
(`is_final_tier = tier_idx == len(tiers) - 1`). -/
theorem C8_top10_correct (tiers : List (List BuildRes)) :
    top10_ok (fun r => r.max_stage) (tiers.getD (tiers.length - 1) [])
        (optimize_top_lists tiers).1 ∧
    top10_ok (fun r => r.avg_stage) (tiers.getD (tiers.length - 1) [])
        (optimize_top_lists tiers).2.1 ∧
    top10_ok (fun r => r.avg_loot_per_hour) (tiers.getD (tiers.length - 1) [])
        (optimize_top_lists tiers).2.2.1 ∧
    top10_ok (fun r => r.avg_damage) (tiers.getD (tiers.length - 1) [])
        (optimize_top_lists tiers).2.2.2.1 ∧
    top10_ok (fun r => r.avg_xp) (tiers.getD (tiers.length - 1) [])
        (optimize_top_lists tiers).2.2.2.2 := by
  obtain ⟨h1, h2, h3, h4, h5⟩ := optimize_top_state_inv tiers
  exact ⟨finalize_top10_ok _ _ _ h1, finalize_top10_ok _ _ _ h2,
    finalize_top10_ok _ _ _ h3, finalize_top10_ok _ _ _ h4,
    finalize_top10_ok _ _ _ h5⟩

theorem mem_nonZeroSorted (l : Alloc) (p : String × ℕ) :
    p ∈ nonZeroSorted l ↔ p ∈ l ∧ p.2 ≠ 0 := by
  unfold nonZeroSorted sortByKey
  rw [(List.perm_insertionSort _ _).mem_iff]
  simp [List.mem_filter]

theorem alloc_eq_of_keys_eq_of_mem_iff :
    ∀ (l1 l2 : Alloc), l1.map Prod.fst = l2.map Prod.fst →
      (l1.map Prod.fst).Nodup →
      (∀ p : String × ℕ, p.2 ≠ 0 → (p ∈ l1 ↔ p ∈ l2)) → l1 = l2 := by
  intro l1
  induction l1 with
  | nil =>
    intro l2 hk _ _
    cases l2 with
    | nil => rfl
    | cons b t => simp at hk
  | cons a t1 ih =>
    intro l2 hk hnd hiff
    cases l2 with
    | nil => simp at hk
    | cons b t2 =>
      obtain ⟨k, v1⟩ := a
      obtain ⟨k2, v2⟩ := b
      simp only [List.map_cons, List.cons.injEq] at hk
      obtain ⟨hkk, hkt⟩ := hk
      subst hkk
      simp only [List.map_cons, List.nodup_cons] at hnd
      obtain ⟨hknot, hndt⟩ := hnd
      have hknot2 : k ∉ t2.map Prod.fst := by
        rw [← hkt]
        exact hknot
      have hv : v1 = v2 := by
        rcases Nat.eq_zero_or_pos v1 with h1 | h1
        · rcases Nat.eq_zero_or_pos v2 with h2 | h2
          · rw [h1, h2]
          · have hm : ((k, v2) : String × ℕ) ∈ (k, v1) :: t1 :=
              (hiff (k, v2) (by omega)).mpr (List.mem_cons_self _ _)
            rcases List.mem_cons.mp hm with heq | hmem
            · have := congrArg Prod.snd heq
              simpa using this.symm
            · exact absurd (List.mem_map.mpr ⟨_, hmem, rfl⟩) hknot
        · have hm : ((k, v1) : String × ℕ) ∈ (k, v2) :: t2 :=
            (hiff (k, v1) (by omega)).mp (List.mem_cons_self _ _)
          rcases List.mem_cons.mp hm with heq | hmem
          · have := congrArg Prod.snd heq
            simpa using this
          · exact absurd (List.mem_map.mpr ⟨_, hmem, rfl⟩) hknot2
      subst hv
      have htl : t1 = t2 := by
        apply ih t2 hkt hndt
        intro p hp
        constructor
        · intro hm
          have hm2 := (hiff p hp).mp (List.mem_cons_of_mem _ hm)
          rcases List.mem_cons.mp hm2 with heq | hmem
          · exfalso
            apply hknot
            rw [show k = p.1 from (congrArg Prod.fst heq).symm]
            exact List.mem_map.mpr ⟨_, hm, rfl⟩
          · exact hmem
        · intro hm
          have hm2 := (hiff p hp).mpr (List.mem_cons_of_mem _ hm)
          rcases List.mem_cons.mp hm2 with heq | hmem
          · exfalso
            apply hknot2
            rw [show k = p.1 from (congrArg Prod.fst heq).symm]
            exact List.mem_map.mpr ⟨_, hm, rfl⟩
          · exact hmem
      rw [htl]

theorem alloc_eq_of_nonZeroSorted_eq (l1 l2 : Alloc)
    (hk : l1.map Prod.fst = l2.map Prod.fst) (hnd : (l1.map Prod.fst).Nodup)
    (hz : nonZeroSorted l1 = nonZeroSorted l2) : l1 = l2 := by
  apply alloc_eq_of_keys_eq_of_mem_iff l1 l2 hk hnd
  intro p hp
  constructor
  · intro hm
    have : p ∈ nonZeroSorted l1 := (mem_nonZeroSorted l1 p).mpr ⟨hm, hp⟩
    rw [hz] at this
    exact ((mem_nonZeroSorted l2 p).mp this).1
  · intro hm
    have : p ∈ nonZeroSorted l2 := (mem_nonZeroSorted l2 p).mpr ⟨hm, hp⟩
    rw [← hz] at this
    exact ((mem_nonZeroSorted l1 p).mp this).1

theorem process_candidate_tested_sub (rest : String) (st : DedupState) (c : Alloc × Alloc) :
    st.tested ⊆ (process_candidate rest st c).tested := by
  simp only [process_candidate]
  split
  · exact fun x hx => hx
  · exact fun x hx => List.mem_cons_of_mem _ hx

theorem process_candidate_key_mem (rest : String) (st : DedupState) (c : Alloc × Alloc) :
    dedup_key rest c ∈ (process_candidate rest st c).tested := by
  simp only [process_candidate]
  split
  · rename_i h
    exact h
  · exact List.mem_cons_self _ _

theorem process_candidates_tested_sub (rest : String) :
    ∀ (cs : List (Alloc × Alloc)) (st : DedupState),
      st.tested ⊆ (process_candidates rest cs st).tested := by
  intro cs
  induction cs with
  | nil =>
    intro st x hx
    exact hx
  | cons c t ih =>
    intro st x hx
    exact ih (process_candidate rest st c) (process_candidate_tested_sub rest st c hx)

theorem process_candidates_key_mem (rest : String) :
    ∀ (pre : List (Alloc × Alloc)) (c : Alloc × Alloc) (mid : List (Alloc × Alloc))
      (st : DedupState),
      dedup_key rest c ∈ (process_candidates rest (pre ++ c :: mid) st).tested := by
  intro pre
  induction pre with
  | nil =>
    intro c mid st
    exact process_candidates_tested_sub rest mid
      (process_candidate rest st c) (process_candidate_key_mem rest st c)
  | cons p t ih =>
    intro c mid st
    exact ih c mid (process_candidate rest st p)

/-- C9: within a single optimization run, two candidates whose sorted
non-zero talent allocations and sorted non-zero attribute allocations
coincide - both drawn from the generator's combos, which share the
hunter's full (duplicate-free) key sets - produce the same dedup key, so
when the second one is reached its key is already in `tested_builds`: it
is skipped (batch and tested set unchanged) and counted in
`duplicates_skipped`. -/
theorem C9_dedup_skips_duplicates (rest : String) (pre mid : List (Alloc × Alloc))
    (c1 c2 : Alloc × Alloc) (st0 : DedupState)
    (hkt : c1.1.map Prod.fst = c2.1.map Prod.fst)
    (hka : c1.2.map Prod.fst = c2.2.map Prod.fst)
    (hndt : (c1.1.map Prod.fst).Nodup)
    (hnda : (c1.2.map Prod.fst).Nodup)
    (ht : nonZeroSorted c1.1 = nonZeroSorted c2.1)
    (ha : nonZeroSorted c1.2 = nonZeroSorted c2.2) :
    process_candidate rest (process_candidates rest (pre ++ c1 :: mid) st0) c2 =
      { process_candidates rest (pre ++ c1 :: mid) st0 with
          duplicates_skipped :=
            (process_candidates rest (pre ++ c1 :: mid) st0).duplicates_skipped + 1 } := by
  have hc : c1 = c2 := by
    obtain ⟨t1, a1⟩ := c1
    obtain ⟨t2, a2⟩ := c2
    simp only [Prod.mk.injEq]
    exact ⟨alloc_eq_of_nonZeroSorted_eq t1 t2 hkt hndt ht,
      alloc_eq_of_nonZeroSorted_eq a1 a2 hka hnda ha⟩
  have hkey : dedup_key rest c2 ∈ (process_candidates rest (pre ++ c1 :: mid) st0).tested := by
    rw [← hc]
    exact process_candidates_key_mem rest pre c1 mid st0
  simp only [process_candidate]
  rw [if_pos hkey]

/-- C9 witness: a concrete two-candidate run in which the second
candidate's allocation coincides with the first one's; processing the
second increments `duplicates_skipped` and leaves the batch unchanged. -/
theorem C9_dedup_skips_duplicates_witness :
    (([("a", 1), ("b", 0)], [("c", 2)]) : Alloc × Alloc).1.map Prod.fst =
        (([("a", 1), ("b", 0)], [("c", 2)]) : Alloc × Alloc).1.map Prod.fst ∧
    process_candidate "" (process_candidates "" [([("a", 1), ("b", 0)], [("c", 2)])]
        { tested := [], batch := [], duplicates_skipped := 0 })
        ([("a", 1), ("b", 0)], [("c", 2)]) =
      { process_candidates "" [([("a", 1), ("b", 0)], [("c", 2)])]
          { tested := [], batch := [], duplicates_skipped := 0 } with
        duplicates_skipped :=
          (process_candidates "" [([("a", 1), ("b", 0)], [("c", 2)])]
            { tested := [], batch := [], duplicates_skipped := 0 }).duplicates_skipped + 1 } :=
  ⟨rfl, C9_dedup_skips_duplicates "" [] [] ([("a", 1), ("b", 0)], [("c", 2)])
    ([("a", 1), ("b", 0)], [("c", 2)]) { tested := [], batch := [], duplicates_skipped := 0 }
    rfl rfl (by decide) (by decide) rfl rfl⟩

end HunterSim
